import Mathlib

/-!
Shallow embedding of the animation-scene layer of the portfolio web
application (files `app.js` and the unnamed companion script).  The
embedding covers:

* the `Scene3D` start/stop/animate lifecycle, modelled as explicit state
  passing over a scene record plus a count of armed animation-frame
  callbacks (the browser callback queue);
* the `Scene3D` constructor/`init`/`setupCanvas`/`render` error behaviour,
  modelled with `Option` (a `none` result is a thrown `TypeError`);
* the `LoadingManager.initParticles` particle-count logic;
* the `HeroScene.update` particle physics (mouse repulsion, movement,
  boundary reflection, clamping, connection rebuilding) over `ℝ`;
* the `CanvasScene` render patterns of both files, each given explicit
  access to the `Math.random` stream so that (non-)consumption of
  randomness is visible in the statements.
-/

namespace Portfolio

/-- Per-frame time increment of `Scene3D.animate` (`this.time += 0.016`). -/
def frameDelta : ℚ := 16 / 1000

/-- Mutable state of a `Scene3D` object that the animation loop touches:
the `isRunning` flag, whether `this.animationId` currently stores a
callback handle, the accumulated `time`, and the subclass entity state
(particles / shapes / elements), abstracted as a type parameter. -/
structure SceneCore (α : Type) where
  isRunning : Bool
  hasHandle : Bool
  time : ℚ
  entities : α
deriving Repr, DecidableEq

/-- A scene together with the browser-side count of armed
`requestAnimationFrame` callbacks for its `animate` method. -/
structure SceneSys (α : Type) where
  scene : SceneCore α
  pending : ℕ
deriving Repr, DecidableEq

/-- Body of `Scene3D.animate`: if `isRunning` is false, return immediately;
otherwise store a fresh callback handle (`this.animationId =
requestAnimationFrame(...)`, arming one more callback), advance `time` by
`0.016`, and run the subclass `update` (`upd`) on the entity state.
Rendering mutates no scene state and is not represented. -/
def animateBody (upd : α → α) (b : SceneSys α) : SceneSys α :=
  if b.scene.isRunning then
    { scene := { isRunning := true, hasHandle := true,
                 time := b.scene.time + frameDelta,
                 entities := upd b.scene.entities },
      pending := b.pending + 1 }
  else b

/-- `Scene3D.start`: set `isRunning := true`, then call `animate`
synchronously. -/
def startOp (upd : α → α) (b : SceneSys α) : SceneSys α :=
  animateBody upd { b with scene := { b.scene with isRunning := true } }

/-- `Scene3D.stop`: set `isRunning := false` and, if a callback handle is
stored, cancel that one armed callback (`cancelAnimationFrame`). -/
def stopOp (b : SceneSys α) : SceneSys α :=
  { scene := { b.scene with isRunning := false },
    pending := if b.scene.hasHandle then b.pending - 1 else b.pending }

/-- Dispatch of a single armed animation-frame callback by the browser:
one pending callback is consumed and `animateBody` runs. -/
def runFrame (upd : α → α) (b : SceneSys α) : SceneSys α :=
  if b.pending = 0 then b else animateBody upd { b with pending := b.pending - 1 }

/-- One display refresh: the browser takes the current queue of armed
callbacks, empties it, and runs each body in turn (callbacks re-armed
during the refresh go to the next frame's queue). -/
def refresh (upd : α → α) (b : SceneSys α) : SceneSys α :=
  (animateBody upd)^[b.pending] { b with pending := 0 }

/-- `LoadingManager.initParticles`: the number of decorative particle
elements appended, as a function of the reduced-motion preference flag,
whether the `.loading-particles` container exists, and the mobile flag
(`appState.isMobile ? 30 : 60`). -/
def initParticlesCount (isReducedMotion : Bool) (hasContainer : Bool)
    (isMobile : Bool) : ℕ :=
  if isReducedMotion || !hasContainer then 0
  else if isMobile then 30 else 60

/-- A canvas element: its CSS-pixel size (what `getBoundingClientRect`
reports), its device-pixel buffer size, and the result its
`getContext('2d')` call yields (`none` models a canvas that gives no 2D
drawing context). -/
structure Canvas where
  cssWidth : ℚ
  cssHeight : ℚ
  bufWidth : ℚ
  bufHeight : ℚ
  ctx2d : Option Unit
deriving Repr, DecidableEq

/-- Observable state of a base `Scene3D` object: the stored canvas
reference (`none` models an absent drawing surface), the stored 2D
context, the running flag and the time accumulator. -/
structure Scene3DObj where
  canvas : Option Canvas
  ctx : Option Unit
  isRunning : Bool
  time : ℚ
deriving Repr, DecidableEq

/-- `Scene3D.setupCanvas` invoked directly: it dereferences `this.canvas`
(for `getBoundingClientRect`) and then `this.ctx` (for `ctx.scale`) with
no guard, resizing the canvas buffer by the device pixel ratio; a `none`
result models the `TypeError` thrown when canvas or context is absent. -/
def setupCanvasOp (dpr : ℚ) (s : Scene3DObj) : Option Scene3DObj :=
  match s.canvas, s.ctx with
  | some cv, some _ =>
    some { s with canvas := some { cv with bufWidth := cv.cssWidth * dpr,
                                           bufHeight := cv.cssHeight * dpr } }
  | _, _ => none

/-- `Scene3D` constructor followed by `init`: fields are initialised;
`init` runs only when a canvas was passed, returns early when
`getContext('2d')` yields nothing, and otherwise calls `setupCanvas` and
`start` (whose first synchronous `animate` frame advances `time` by one
tick). No path throws. -/
def mkScene3D (dpr : ℚ) (c : Option Canvas) : Scene3DObj :=
  match c with
  | none => { canvas := none, ctx := none, isRunning := false, time := 0 }
  | some cv =>
    match cv.ctx2d with
    | none => { canvas := some cv, ctx := none, isRunning := false, time := 0 }
    | some ctx =>
      { canvas := some { cv with bufWidth := cv.cssWidth * dpr,
                                 bufHeight := cv.cssHeight * dpr },
        ctx := some ctx, isRunning := true, time := frameDelta }

/-- `Scene3D.render`: guarded by `if (!this.ctx) return;`; with a context
present it dereferences `this.canvas` for its bounding rectangle (a
`none` result models the `TypeError` that a direct call would throw on a
context-bearing scene with no canvas; that state is unreachable from the
constructor). -/
def renderOp (s : Scene3DObj) : Option Scene3DObj :=
  match s.ctx with
  | none => some s
  | some _ =>
    match s.canvas with
    | none => none
    | some _ => some s

/-- `Scene3D.update`: the base-class body is empty. -/
def updateOp (s : Scene3DObj) : Option Scene3DObj := some s

/-- `Scene3D.animate`: guard on the running flag, then advance `time` and
run `update` and `render`. -/
def animateOp (s : Scene3DObj) : Option Scene3DObj :=
  if s.isRunning then
    (updateOp { s with time := s.time + frameDelta }).bind renderOp
  else some s

/-- `Scene3D.start`: set the running flag and call `animate`
synchronously. -/
def startOp3D (s : Scene3DObj) : Option Scene3DObj :=
  animateOp { s with isRunning := true }

/-- `Scene3D.stop`: clear the running flag (`cancelAnimationFrame` throws
nothing). -/
def stopOp3D (s : Scene3DObj) : Option Scene3DObj :=
  some { s with isRunning := false }

/-- `Scene3D.dispose`: delegates to `stop`. -/
def disposeOp (s : Scene3DObj) : Option Scene3DObj := stopOp3D s

/-- A particle of `HeroScene` (the unnamed script's version): position,
depth, size, speed, heading angle, opacity and pulse phase.  The
`connections` array is modelled separately by `updateConnections`. -/
structure HeroParticle where
  x : ℝ
  y : ℝ
  z : ℝ
  size : ℝ
  speed : ℝ
  angle : ℝ
  opacity : ℝ
  pulsePhase : ℝ

/-- Euclidean distance as computed by the repeated
`Math.sqrt(Math.pow(a - b, 2) + Math.pow(c - d, 2))` pattern. -/
noncomputable def euclidDist (x1 y1 x2 y2 : ℝ) : ℝ :=
  Real.sqrt ((x1 - x2) ^ 2 + (y1 - y2) ^ 2)

/-- `Math.atan2 y x`, the angle of the vector `(x, y)`. -/
noncomputable def atan2 (y x : ℝ) : ℝ := Complex.arg ⟨x, y⟩

/-- The clamp `Math.max(lo, Math.min(hi, v))` used on particle
positions. -/
noncomputable def jsClamp (lo hi v : ℝ) : ℝ := max lo (min hi v)

open Classical in
/-- Mouse-interaction stage of `HeroScene.update`: when the pointer is
within distance 100 of the particle, displace it by
`(cos a, sin a) * mouseForce * 2` where `mouseForce = (100 - d) / 100`
and `a = atan2(py - my, px - mx)` points from the pointer to the
particle. -/
noncomputable def mouseRepulsion (mx my px py : ℝ) : ℝ × ℝ :=
  if euclidDist mx my px py < 100 then
    (px + Real.cos (atan2 (py - my) (px - mx)) *
        ((100 - euclidDist mx my px py) / 100) * 2,
     py + Real.sin (atan2 (py - my) (px - mx)) *
        ((100 - euclidDist mx my px py) / 100) * 2)
  else (px, py)

/-- `HeroScene.update` stage 1 applied to a particle record. -/
noncomputable def heroMouse (mx my : ℝ) (p : HeroParticle) : HeroParticle :=
  { p with x := (mouseRepulsion mx my p.x p.y).1,
           y := (mouseRepulsion mx my p.x p.y).2 }

/-- `HeroScene.update` stage 2: move along the heading and advance the
pulse phase. -/
noncomputable def heroMove (p : HeroParticle) : HeroParticle :=
  { p with x := p.x + Real.cos p.angle * p.speed,
           y := p.y + Real.sin p.angle * p.speed,
           pulsePhase := p.pulsePhase + 0.05 }

open Classical in
/-- `HeroScene.update` stage 3: boundary reflection — mirror the heading
across the y axis (`angle := π - angle`) when the x boundary is crossed,
then negate it (`angle := -angle`) when the y boundary is crossed. -/
noncomputable def heroReflect (w h : ℝ) (p : HeroParticle) : HeroParticle :=
  { p with angle :=
      let a1 := if p.x < 0 ∨ p.x > w then Real.pi - p.angle else p.angle
      if p.y < 0 ∨ p.y > h then -a1 else a1 }

/-- `HeroScene.update` stage 4: clamp the position into the canvas
bounds. -/
noncomputable def heroClamp (w h : ℝ) (p : HeroParticle) : HeroParticle :=
  { p with x := jsClamp 0 w p.x, y := jsClamp 0 h p.y }

/-- The whole per-particle position/heading update of `HeroScene.update`
(the connection rebuild, which does not touch position or heading, is
`updateConnections`). -/
noncomputable def heroUpdateParticle (w h mx my : ℝ) (p : HeroParticle) :
    HeroParticle :=
  heroClamp w h (heroReflect w h (heroMove (heroMouse mx my p)))

/-- The per-frame update applied to every particle of the scene. -/
noncomputable def heroUpdateAll (w h mx my : ℝ) (ps : List HeroParticle) :
    List HeroParticle :=
  ps.map (heroUpdateParticle w h mx my)

/-- Distance between two particles as computed in the connection loop. -/
noncomputable def particleDist (p q : HeroParticle) : ℝ :=
  euclidDist p.x p.y q.x q.y

open Classical in
/-- Connection rebuild for the particle at index `i` (current record
`p`): scan indices `j = i+1, ..., length-1` and record `(j, opacity)`
with `opacity = (120 - distance) / 120` whenever `distance < 120`. -/
noncomputable def updateConnections (ps : List HeroParticle) (i : ℕ)
    (p : HeroParticle) : List (ℕ × ℝ) :=
  (ps.enum.filter (fun jq => i < jq.1)).filterMap fun jq =>
    if particleDist p jq.2 < 120 then
      some (jq.1, (120 - particleDist p jq.2) / 120)
    else none

/-- An element of the unnamed script's `CanvasScene`. -/
structure CElement where
  x : ℝ
  y : ℝ
  size : ℝ
  angle : ℝ
  speed : ℝ
  opacity : ℝ
  etype : ℕ

/-- The JavaScript `%` operator on numbers: remainder with the sign of
the dividend (`a - b * trunc (a / b)`). -/
noncomputable def realTrunc (x : ℝ) : ℤ :=
  if 0 ≤ x then ⌊x⌋ else ⌈x⌉

/-- JavaScript remainder `a % b`. -/
noncomputable def jsMod (a b : ℝ) : ℝ := a - b * realTrunc (a / b)

/-- `CanvasScene.renderHologram` (unnamed script): the three rotating
rectangle frames `(rotation, alpha, size)` and the eight scan-line `y`
coordinates.  The `rand` argument is the `Math.random` stream; the body
consumes none of it. -/
noncomputable def hologramOut (t : ℝ) (rand : ℕ → ℝ) :
    List (ℝ × ℝ × ℝ) × List ℝ :=
  ((List.range 3).map fun i =>
      (t + i * (Real.pi / 3), 0.8 - i * 0.2, 40 + i * 20),
   (List.range 8).map fun i =>
      -60 + i * 15 + jsMod (t * 20) 120)

/-- Node `i` of `CanvasScene.renderNetwork` (unnamed script): angle
`(i / 12) * 2π + t * 0.5` on a circle of radius 80. -/
noncomputable def networkNodePos (t : ℝ) (i : ℕ) : ℝ × ℝ :=
  (Real.cos ((i / 12 : ℝ) * (2 * Real.pi) + t * 0.5) * 80,
   Real.sin ((i / 12 : ℝ) * (2 * Real.pi) + t * 0.5) * 80)

open Classical in
/-- Connection choices of the unnamed script's `renderNetwork`: every
ordered pair of distinct nodes at distance below `radius * 1.2`. -/
noncomputable def networkConnections (t : ℝ) : List (ℕ × ℕ) :=
  (List.range 12).flatMap fun i =>
    (List.range 12).filterMap fun j =>
      if i ≠ j ∧
          euclidDist (networkNodePos t i).1 (networkNodePos t i).2
            (networkNodePos t j).1 (networkNodePos t j).2 < 80 * 1.2 then
        some (i, j)
      else none

/-- `CanvasScene.renderNetwork` (unnamed script): node positions, node
pulses, connection choices and core size.  No randomness consumed. -/
noncomputable def networkOut (t : ℝ) (rand : ℕ → ℝ) :
    List (ℝ × ℝ) × List ℝ × List (ℕ × ℕ) × ℝ :=
  ((List.range 12).map (networkNodePos t),
   (List.range 12).map fun i => Real.sin (t * 2 + i) * 0.5 + 1,
   networkConnections t,
   8 + Real.sin (t * 3) * 3)

/-- `CanvasScene.renderParticleSystem` (unnamed script): per-element
drawn position and size (the element's angle is advanced by its speed
first and the drawing uses the new angle), the three energy-wave radii,
and the mutated element array.  No randomness consumed. -/
noncomputable def particleSystemOut (t : ℝ) (es : List CElement)
    (rand : ℕ → ℝ) : List (ℝ × ℝ × ℝ) × List ℝ × List CElement :=
  (es.enum.map fun ie =>
      (Real.cos (ie.2.angle + ie.2.speed) *
          (40 + Real.sin (t * 2 + ie.1) * 25),
       Real.sin (ie.2.angle + ie.2.speed) *
          (40 + Real.sin (t * 2 + ie.1) * 25),
       ie.2.size * (0.8 + Real.sin (t * 3 + ie.1) * 0.4)),
   (List.range 3).map fun i => 30 + i * 20 + jsMod (t * 30) 60,
   es.map fun e => { e with angle := e.angle + e.speed })

/-- Layer sizes of `renderNeuralNetwork`. -/
def neuralLayers : List ℕ := [6, 8, 6, 4]

/-- Activation of node `i` in layer `L` at time `t`:
`sin(t * 2 + L + i) * 0.5 + 0.5`. -/
noncomputable def neuralActivation (t : ℝ) (L i : ℕ) : ℝ :=
  Real.sin (t * 2 + L + i) * 0.5 + 0.5

/-- Nodes of `renderNeuralNetwork`, layer by layer: `(x, y, activation)`
with `x = -120 * (4 - 1) / 2 + L * 120` and
`y = -(n - 1) * 30 / 2 + i * 30`. -/
noncomputable def neuralNodes (t : ℝ) : List (List (ℝ × ℝ × ℝ)) :=
  neuralLayers.enum.map fun Ln =>
    (List.range Ln.2).map fun (i : ℕ) =>
      (-(120 * ((neuralLayers.length : ℝ) - 1)) / 2 + (Ln.1 : ℝ) * 120,
       -((Ln.2 : ℝ) - 1) * 30 / 2 + (i : ℝ) * 30,
       neuralActivation t Ln.1 i)

/-- Connections of `renderNeuralNetwork`: every pair of nodes in
consecutive layers, with alpha `0.1 + strength * 0.3` where `strength`
averages the two activations. -/
noncomputable def neuralConnections (t : ℝ) :
    List ((ℝ × ℝ × ℝ) × (ℝ × ℝ × ℝ) × ℝ) :=
  ((neuralNodes t).zip (neuralNodes t).tail).flatMap fun LL =>
    LL.1.flatMap fun n1 =>
      LL.2.map fun n2 => (n1, n2, 0.1 + (n1.2.2 + n2.2.2) / 2 * 0.3)

/-- `CanvasScene.renderNeuralNetwork` (unnamed script): nodes and
connections.  No randomness consumed. -/
noncomputable def neuralOut (t : ℝ) (rand : ℕ → ℝ) :
    List (List (ℝ × ℝ × ℝ)) × List ((ℝ × ℝ × ℝ) × (ℝ × ℝ × ℝ) × ℝ) :=
  (neuralNodes t, neuralConnections t)

/-- `Scene3D.renderDefault` (unnamed script): the two applied rotations
`time` and `-(time * 2)`.  No randomness consumed. -/
noncomputable def defaultOut (t : ℝ) (rand : ℕ → ℝ) : ℝ × ℝ :=
  (t, -(t * 2))

/-- Connection choices of `app.js`'s `CanvasScene.renderNetwork`: for
every ordered pair `(i, j)` of the 8 nodes with `i ≠ j`, the pair is
drawn exactly when the next value of the `Math.random` stream exceeds
0.7.  The fold threads the count of consumed random values. -/
def appjsNetworkConnChoices (rand : ℕ → ℚ) : List (ℕ × ℕ) :=
  (((List.range 8).flatMap fun i => (List.range 8).map fun j => (i, j)).foldl
    (fun acc p =>
      if p.1 = p.2 then acc
      else if rand acc.2 > 7 / 10 then (acc.1 ++ [p], acc.2 + 1)
      else (acc.1, acc.2 + 1))
    ([], 0)).1

end Portfolio

namespace Portfolio

/-- Claim C9: if the reduced-motion preference flag is set at construction
time, `LoadingManager.initParticles` returns before creating any particle
element, so zero decorative particles are created, for every value of the
container presence and mobile flags (and hence irrespective of the 30/60
particle-count tuning). -/
theorem reduced_motion_creates_no_particles (hasContainer isMobile : Bool) :
    initParticlesCount true hasContainer isMobile = 0 := by
  simp [initParticlesCount]

/-- An `animate` callback whose scene is not running returns at the guard
and changes nothing. -/
lemma animateBody_of_not_running (upd : α → α) (c : SceneSys α)
    (h : c.scene.isRunning = false) : animateBody upd c = c := by
  unfold animateBody
  rw [h]
  simp

/-- The `stop` operation can only lower the armed-callback count. -/
lemma stopOp_pending_le (b : SceneSys α) : (stopOp b).pending ≤ b.pending := by
  unfold stopOp
  dsimp only
  split <;> omega

/-- Claim C6: after `stop()` sets `isRunning := false`, a frame callback
that was already dispatched checks the running flag at entry and exits
before any update or render: dispatching it mutates no scene state (the
time accumulator and the entity state keep the values they had when
`stop()` returned, and equal the pre-stop values), the scene stays
not-running, and no new callback is armed. -/
theorem stop_halts_frame_callbacks (upd : α → α) (b : SceneSys α) :
    (runFrame upd (stopOp b)).scene.entities = b.scene.entities ∧
    (runFrame upd (stopOp b)).scene.time = b.scene.time ∧
    (runFrame upd (stopOp b)).scene.isRunning = false ∧
    (runFrame upd (stopOp b)).pending ≤ b.pending := by
  have hr : runFrame upd (stopOp b) = stopOp b ∨
      runFrame upd (stopOp b) =
        { stopOp b with pending := (stopOp b).pending - 1 } := by
    unfold runFrame
    split
    · exact Or.inl rfl
    · exact Or.inr (animateBody_of_not_running upd _ rfl)
  rcases hr with h | h <;> rw [h]
  · exact ⟨rfl, rfl, rfl, stopOp_pending_le b⟩
  · exact ⟨rfl, rfl, rfl, le_trans (Nat.sub_le _ _) (stopOp_pending_le b)⟩

/-- Claim C7 (amended): `stop()` itself modifies no entity state and no
time accumulator, and `stop()` followed by `start()` resumes from the
already-mutated entity state with no reset — but `start()` synchronously
invokes `animate`, which performs one regular frame: the entity state
after `stop(); start()` is exactly one subclass update applied to the
pre-stop entity state, and the time accumulator has advanced by exactly
one `0.016` tick. -/
theorem stop_start_resumes_with_one_frame (upd : α → α) (b : SceneSys α) :
    (stopOp b).scene.entities = b.scene.entities ∧
    (stopOp b).scene.time = b.scene.time ∧
    (startOp upd (stopOp b)).scene.entities = upd b.scene.entities ∧
    (startOp upd (stopOp b)).scene.time = b.scene.time + frameDelta ∧
    (startOp upd (stopOp b)).scene.isRunning = true := by
  unfold startOp stopOp animateBody
  simp

/-- Claim C7, counterexample to the claim as stated: the composition
`stop(); start()` does not leave all scene state unchanged — on a concrete
running scene with time accumulator `0` and a no-op subclass update, the
time accumulator after `stop(); start()` is `0.016 ≠ 0`, because `start()`
synchronously runs one animation frame. -/
theorem stop_start_mutates_time :
    (startOp id (stopOp (⟨⟨true, true, 0, ()⟩, 1⟩ : SceneSys Unit))).scene.time ≠
      (⟨⟨true, true, 0, ()⟩, 1⟩ : SceneSys Unit).scene.time := by
  norm_num [startOp, stopOp, animateBody, frameDelta]

/-- Claim C10: `start()` does not check the running flag: called on a
scene that is already running with one armed callback chain, it invokes
`animate` again, leaving two armed callbacks; on every subsequent display
refresh both chains run, so the scene performs two update cycles (and two
`0.016` time ticks) per refresh instead of one, and two callbacks stay
armed. -/
theorem start_while_running_doubles_frames (upd : α → α) (b : SceneSys α)
    (hrun : b.scene.isRunning = true) (hp : b.pending = 1) :
    (startOp upd b).pending = 2 ∧
    (refresh upd (startOp upd b)).pending = 2 ∧
    (refresh upd (startOp upd b)).scene.entities =
      upd (upd ((startOp upd b).scene.entities)) ∧
    (refresh upd (startOp upd b)).scene.time =
      (startOp upd b).scene.time + frameDelta + frameDelta := by
  have hb : startOp upd b =
      { scene := { isRunning := true, hasHandle := true,
                   time := b.scene.time + frameDelta,
                   entities := upd b.scene.entities },
        pending := 2 } := by
    unfold startOp animateBody
    simp [hp]
  have h2 : ∀ s : SceneSys α, (animateBody upd)^[2] s =
      animateBody upd (animateBody upd s) := fun _ => rfl
  rw [hb]
  unfold refresh
  rw [h2]
  simp [animateBody]

/-- Witness for C10 at a concrete input: a running scene over `ℕ` entity
state with one armed callback; after `start()` two callbacks are armed and
the next refresh applies the update twice. -/
theorem start_while_running_doubles_frames_witness :
    ((⟨⟨true, true, 0, (0 : ℕ)⟩, 1⟩ : SceneSys ℕ).scene.isRunning = true ∧
     (⟨⟨true, true, 0, (0 : ℕ)⟩, 1⟩ : SceneSys ℕ).pending = 1) ∧
    ((startOp Nat.succ (⟨⟨true, true, 0, (0 : ℕ)⟩, 1⟩ : SceneSys ℕ)).pending = 2 ∧
     (refresh Nat.succ (startOp Nat.succ (⟨⟨true, true, 0, (0 : ℕ)⟩, 1⟩ : SceneSys ℕ))).pending = 2 ∧
     (refresh Nat.succ (startOp Nat.succ (⟨⟨true, true, 0, (0 : ℕ)⟩, 1⟩ : SceneSys ℕ))).scene.entities =
       Nat.succ (Nat.succ ((startOp Nat.succ (⟨⟨true, true, 0, (0 : ℕ)⟩, 1⟩ : SceneSys ℕ)).scene.entities)) ∧
     (refresh Nat.succ (startOp Nat.succ (⟨⟨true, true, 0, (0 : ℕ)⟩, 1⟩ : SceneSys ℕ))).scene.time =
       (startOp Nat.succ (⟨⟨true, true, 0, (0 : ℕ)⟩, 1⟩ : SceneSys ℕ)).scene.time + frameDelta + frameDelta) :=
  ⟨⟨rfl, rfl⟩, start_while_running_doubles_frames Nat.succ _ rfl rfl⟩

/-- Claim C5 (amended): every render pattern of the unnamed script's
generic canvas scene — hologram, network, particle, neural and default —
is a deterministic function of the accumulated time value and the
per-pattern element array: the bodies consume nothing from the
`Math.random` stream, so renders under any two random streams produce
identical frame rotations, node positions, pulses, connection choices and
activations (`app.js`'s network pattern is the exception, see the
counterexample). -/
theorem canvas_patterns_deterministic (t : ℝ) (es : List CElement)
    (r1 r2 : ℕ → ℝ) :
    hologramOut t r1 = hologramOut t r2 ∧
    networkOut t r1 = networkOut t r2 ∧
    particleSystemOut t es r1 = particleSystemOut t es r2 ∧
    neuralOut t r1 = neuralOut t r2 ∧
    defaultOut t r1 = defaultOut t r2 :=
  ⟨rfl, rfl, rfl, rfl, rfl⟩

/-- Claim C5, counterexample to the claim as stated: the `network`
pattern of `app.js`'s `CanvasScene` consumes one `Math.random` value per
ordered pair of distinct nodes when rebuilding connection choices, so two
renders at the same time value and element state give different
connection choices under different random draws (here: a stream of 1s
versus a stream of 0s against the 0.7 threshold). -/
theorem appjs_network_consumes_randomness :
    appjsNetworkConnChoices (fun _ => 1) ≠ appjsNetworkConnChoices (fun _ => 0) := by
  norm_num [appjsNetworkConnChoices, List.range_succ]
  simp

/-- Claim C8 (amended): constructing a scene with an absent drawing
surface, or with a surface yielding no 2D context, succeeds and leaves an
idle, context-less scene; `start`, `stop`, `update`, `render` and
`dispose` never throw on such a scene (`update` and `render`
early-return; `start`/`stop` only toggle the flag and run guarded
frames); but `setupCanvas`, invoked directly, dereferences the canvas and
the context without a guard and throws on both degenerate scenes. -/
theorem idle_scene_ops_no_throw (dpr : ℚ) (cv : Canvas)
    (hcv : cv.ctx2d = none) :
    (mkScene3D dpr none).ctx = none ∧
    (mkScene3D dpr none).isRunning = false ∧
    (mkScene3D dpr (some cv)).ctx = none ∧
    (mkScene3D dpr (some cv)).isRunning = false ∧
    (∀ s : Scene3DObj, s.ctx = none →
      (startOp3D s).isSome ∧ (stopOp3D s).isSome ∧ (updateOp s).isSome ∧
        renderOp s = some s ∧ (disposeOp s).isSome) ∧
    setupCanvasOp dpr (mkScene3D dpr none) = none ∧
    setupCanvasOp dpr (mkScene3D dpr (some cv)) = none := by
  have hmk : mkScene3D dpr (some cv) =
      { canvas := some cv, ctx := none, isRunning := false, time := 0 } := by
    simp [mkScene3D, hcv]
  refine ⟨rfl, rfl, by rw [hmk], by rw [hmk], ?_, rfl, by rw [hmk]; rfl⟩
  intro s hs
  refine ⟨?_, rfl, rfl, ?_, rfl⟩
  · simp [startOp3D, animateOp, updateOp, renderOp, hs]
  · simp [renderOp, hs]

/-- Claim C8, counterexample to the claim as stated: on a scene
constructed with an absent drawing surface, invoking `setupCanvas` is not
a silent no-op — it dereferences the absent canvas and throws (`none`). -/
theorem setupCanvas_throws_without_canvas :
    setupCanvasOp 1 (mkScene3D 1 none) = none := rfl

/-- Witness for C8 at a concrete input: an 800 × 600 canvas whose
`getContext('2d')` yields nothing. -/
theorem idle_scene_ops_no_throw_witness :
    (⟨800, 600, 800, 600, none⟩ : Canvas).ctx2d = none ∧
    setupCanvasOp 2 (mkScene3D 2 (some ⟨800, 600, 800, 600, none⟩)) = none :=
  ⟨rfl, (idle_scene_ops_no_throw 2 ⟨800, 600, 800, 600, none⟩ rfl).2.2.2.2.2.2⟩

/-- Claim C1: after the per-frame update of `HeroScene.update`, every
particle's position lies inside the canvas bounds: `0 ≤ x ≤ w` and
`0 ≤ y ≤ h`, because the clamp is the last step of each particle's
position update. -/
theorem hero_update_clamp_invariant (w h mx my : ℝ) (ps : List HeroParticle)
    (q : HeroParticle) (hw : 0 ≤ w) (hh : 0 ≤ h)
    (hq : q ∈ heroUpdateAll w h mx my ps) :
    0 ≤ q.x ∧ q.x ≤ w ∧ 0 ≤ q.y ∧ q.y ≤ h := by
  unfold heroUpdateAll at hq
  obtain ⟨p, hp, rfl⟩ := List.mem_map.mp hq
  unfold heroUpdateParticle heroClamp jsClamp
  exact ⟨le_max_left _ _, max_le hw (min_le_left _ _),
         le_max_left _ _, max_le hh (min_le_left _ _)⟩

/-- Witness for C1 at a concrete input: one particle on an 800 × 600
canvas with the pointer at the origin. -/
theorem hero_update_clamp_invariant_witness :
    ((0:ℝ) ≤ 800 ∧ (0:ℝ) ≤ 600 ∧
      heroUpdateParticle 800 600 0 0 ⟨1, 2, 3, 2, 1, 1, 1, 0⟩ ∈
        heroUpdateAll 800 600 0 0 [⟨1, 2, 3, 2, 1, 1, 1, 0⟩]) ∧
    (0 ≤ (heroUpdateParticle 800 600 0 0 ⟨1, 2, 3, 2, 1, 1, 1, 0⟩).x ∧
     (heroUpdateParticle 800 600 0 0 ⟨1, 2, 3, 2, 1, 1, 1, 0⟩).x ≤ 800 ∧
     0 ≤ (heroUpdateParticle 800 600 0 0 ⟨1, 2, 3, 2, 1, 1, 1, 0⟩).y ∧
     (heroUpdateParticle 800 600 0 0 ⟨1, 2, 3, 2, 1, 1, 1, 0⟩).y ≤ 600) :=
  ⟨⟨by norm_num, by norm_num, List.mem_singleton.mpr rfl⟩,
   hero_update_clamp_invariant 800 600 0 0 [⟨1, 2, 3, 2, 1, 1, 1, 0⟩] _
     (by norm_num) (by norm_num) (List.mem_singleton.mpr rfl)⟩

/-- Claim C2: in the per-frame connection rebuild with threshold 120, the
particle at index `i` records `(j, opacity)` exactly when `i < j` and the
pair's Euclidean distance is below 120, the recorded opacity equals
`(120 - distance) / 120` at the moment of computation, every recorded
opacity lies in `[0, 1]`, and two particles at distance 50 yield opacity
`(120 - 50) / 120 = 7/12 ≈ 0.583`. -/
theorem connection_strength_in_unit_interval (ps : List HeroParticle)
    (i j : ℕ) (p : HeroParticle) (o : ℝ) :
    ((j, o) ∈ updateConnections ps i p ↔
      i < j ∧ ∃ q, ps[j]? = some q ∧ particleDist p q < 120 ∧
        o = (120 - particleDist p q) / 120) ∧
    ((j, o) ∈ updateConnections ps i p → 0 ≤ o ∧ o ≤ 1) ∧
    updateConnections
      [⟨0, 0, 0, 1, 1, 0, 1, 0⟩, ⟨50, 0, 0, 1, 1, 0, 1, 0⟩] 0
      ⟨0, 0, 0, 1, 1, 0, 1, 0⟩ = [(1, 7 / 12)] := by
  have hmem : (j, o) ∈ updateConnections ps i p ↔
      i < j ∧ ∃ q, ps[j]? = some q ∧ particleDist p q < 120 ∧
        o = (120 - particleDist p q) / 120 := by
    unfold updateConnections
    rw [List.mem_filterMap]
    constructor
    · rintro ⟨jq, hjq, hsome⟩
      rw [List.mem_filter] at hjq
      obtain ⟨henum, hlt⟩ := hjq
      rw [List.mem_enum_iff_getElem?] at henum
      split_ifs at hsome with hdist
      · rw [Option.some.injEq, Prod.mk.injEq] at hsome
        obtain ⟨hj1, ho⟩ := hsome
        subst hj1
        exact ⟨by simpa using hlt, jq.2, henum, hdist, ho.symm⟩
    · rintro ⟨hij, q, hgq, hdist, rfl⟩
      refine ⟨(j, q), ?_, ?_⟩
      · rw [List.mem_filter]
        exact ⟨List.mem_enum_iff_getElem?.mpr hgq, by simpa using hij⟩
      · rw [if_pos hdist]
  refine ⟨hmem, ?_, ?_⟩
  · intro hrec
    obtain ⟨-, q, -, hdist, ho⟩ := hmem.mp hrec
    have hd0 : 0 ≤ particleDist p q := Real.sqrt_nonneg _
    subst ho
    constructor
    · exact div_nonneg (by linarith) (by norm_num)
    · rw [div_le_one (by norm_num : (0:ℝ) < 120)]
      linarith
  · have hd : particleDist (⟨0, 0, 0, 1, 1, 0, 1, 0⟩ : HeroParticle)
        (⟨50, 0, 0, 1, 1, 0, 1, 0⟩ : HeroParticle) = 50 := by
      unfold particleDist euclidDist
      dsimp only
      rw [show ((0:ℝ) - 50) ^ 2 + ((0:ℝ) - 0) ^ 2 = 50 ^ 2 by norm_num]
      exact Real.sqrt_sq (by norm_num)
    unfold updateConnections
    simp [List.enum, List.enumFrom, List.filter, List.filterMap, hd]
    norm_num

/-- Witness for C2 at a concrete input: the two particles at distance 50
of the scenario; the recorded connection and its opacity bounds. -/
theorem connection_strength_witness :
    (1, (7:ℝ) / 12) ∈ updateConnections
      [⟨0, 0, 0, 1, 1, 0, 1, 0⟩, ⟨50, 0, 0, 1, 1, 0, 1, 0⟩] 0
      ⟨0, 0, 0, 1, 1, 0, 1, 0⟩ ∧
    (0 ≤ (7:ℝ) / 12 ∧ (7:ℝ) / 12 ≤ 1) := by
  have T := connection_strength_in_unit_interval
    [⟨0, 0, 0, 1, 1, 0, 1, 0⟩, ⟨50, 0, 0, 1, 1, 0, 1, 0⟩] 0 1
    ⟨0, 0, 0, 1, 1, 0, 1, 0⟩ (7 / 12)
  have hm : (1, (7:ℝ) / 12) ∈ updateConnections
      [⟨0, 0, 0, 1, 1, 0, 1, 0⟩, ⟨50, 0, 0, 1, 1, 0, 1, 0⟩] 0
      ⟨0, 0, 0, 1, 1, 0, 1, 0⟩ := by
    rw [T.2.2]
    exact List.mem_singleton.mpr rfl
  exact ⟨hm, T.2.1 hm⟩

/-- The mouse-interaction stage leaves the particle untouched when the
pointer is at distance at least 100. -/
lemma mouseRepulsion_far (mx my px py : ℝ)
    (hfar : ¬ euclidDist mx my px py < 100) :
    mouseRepulsion mx my px py = (px, py) := by
  unfold mouseRepulsion
  rw [if_neg hfar]

/-- Claim C4: when the pointer is at distance `0 < d < 100` from a
particle, `HeroScene.update` displaces the particle along the normalized
vector from pointer to particle, scaled by the force factor
`(100 - d) / 100` and the constant gain 2; at distance at least 100 no
repulsion displacement is applied.  (At `d = 60` the force factor is
`(100 - 60) / 100 = 2/5 = 0.4`; see the witness.) -/
theorem mouse_repulsion_formula (mx my px py : ℝ) :
    (0 < euclidDist mx my px py → euclidDist mx my px py < 100 →
      mouseRepulsion mx my px py =
        (px + (px - mx) / euclidDist mx my px py *
            ((100 - euclidDist mx my px py) / 100) * 2,
         py + (py - my) / euclidDist mx my px py *
            ((100 - euclidDist mx my px py) / 100) * 2)) ∧
    (¬ euclidDist mx my px py < 100 →
      mouseRepulsion mx my px py = (px, py)) := by
  constructor
  · intro hdpos hdlt
    have habs : Complex.abs ⟨px - mx, py - my⟩ = euclidDist mx my px py := by
      rw [Complex.abs_apply, Complex.normSq_mk]
      unfold euclidDist
      congr 1
      ring
    have hz : (⟨px - mx, py - my⟩ : ℂ) ≠ 0 := by
      intro h0
      rw [h0] at habs
      simp at habs
      linarith
    have hcos : Real.cos (atan2 (py - my) (px - mx)) =
        (px - mx) / euclidDist mx my px py := by
      unfold atan2
      rw [Complex.cos_arg hz, habs]
    have hsin : Real.sin (atan2 (py - my) (px - mx)) =
        (py - my) / euclidDist mx my px py := by
      unfold atan2
      rw [Complex.sin_arg, habs]
    unfold mouseRepulsion
    rw [if_pos hdlt, hcos, hsin]
  · exact mouseRepulsion_far mx my px py

/-- Witness for C4 at a concrete input: pointer at the origin, particle
at `(60, 0)`, so the distance is 60 and the force factor is `2/5 = 0.4`. -/
theorem mouse_repulsion_formula_witness :
    (0 < euclidDist 0 0 60 0 ∧ euclidDist 0 0 60 0 < 100 ∧
      (100 - euclidDist 0 0 60 0) / 100 = 2 / 5) ∧
    mouseRepulsion 0 0 60 0 =
      (60 + ((60:ℝ) - 0) / euclidDist 0 0 60 0 *
          ((100 - euclidDist 0 0 60 0) / 100) * 2,
       0 + ((0:ℝ) - 0) / euclidDist 0 0 60 0 *
          ((100 - euclidDist 0 0 60 0) / 100) * 2) := by
  have hd : euclidDist 0 0 60 0 = 60 := by
    unfold euclidDist
    rw [show ((0:ℝ) - 60) ^ 2 + ((0:ℝ) - 0) ^ 2 = 60 ^ 2 by norm_num]
    exact Real.sqrt_sq (by norm_num)
  refine ⟨⟨by rw [hd]; norm_num, by rw [hd]; norm_num, by rw [hd]; norm_num⟩, ?_⟩
  exact (mouse_repulsion_formula 0 0 60 0).1 (by rw [hd]; norm_num)
    (by rw [hd]; norm_num)

/-- Claim C3: a particle at `(0, y)` with heading `θ = π` (moving left,
pointer far away) crosses the left boundary during one update step: the
heading's x component reverses sign (`cos` changes sign under
`θ ↦ π - θ`), its y component is unchanged, and the x position after the
clamp is exactly 0. -/
theorem left_boundary_reflection (w h mx my : ℝ) (p : HeroParticle)
    (hx : p.x = 0) (ha : p.angle = Real.pi) (hs : 0 < p.speed)
    (hfar : ¬ euclidDist mx my p.x p.y < 100) :
    (heroUpdateParticle w h mx my p).x = 0 ∧
    Real.cos (heroUpdateParticle w h mx my p).angle = -Real.cos p.angle ∧
    Real.sin (heroUpdateParticle w h mx my p).angle = Real.sin p.angle := by
  have hmouse : heroMouse mx my p = p := by
    unfold heroMouse
    rw [mouseRepulsion_far mx my p.x p.y hfar]
  set q := heroMove (heroMouse mx my p) with hq
  have hqx : q.x = -p.speed := by
    rw [hq, hmouse]
    unfold heroMove
    dsimp only
    rw [hx, ha, Real.cos_pi]
    ring
  have hqa : q.angle = Real.pi := by
    rw [hq, hmouse]
    unfold heroMove
    dsimp only
    exact ha
  have hrefl : (heroReflect w h q).angle = 0 := by
    unfold heroReflect
    dsimp only
    have hcond : q.x < 0 ∨ q.x > w := Or.inl (by rw [hqx]; linarith)
    rw [if_pos hcond, hqa, sub_self]
    split_ifs <;> simp
  refine ⟨?_, ?_, ?_⟩
  · show (heroClamp w h (heroReflect w h q)).x = 0
    unfold heroClamp jsClamp
    dsimp only
    have hrx : (heroReflect w h q).x = q.x := rfl
    rw [hrx, hqx]
    exact max_eq_left (le_trans (min_le_right _ _) (by linarith))
  · show Real.cos (heroClamp w h (heroReflect w h q)).angle = -Real.cos p.angle
    have hca : (heroClamp w h (heroReflect w h q)).angle =
        (heroReflect w h q).angle := rfl
    rw [hca, hrefl, Real.cos_zero, ha, Real.cos_pi, neg_neg]
  · show Real.sin (heroClamp w h (heroReflect w h q)).angle = Real.sin p.angle
    have hca : (heroClamp w h (heroReflect w h q)).angle =
        (heroReflect w h q).angle := rfl
    rw [hca, hrefl, Real.sin_zero, ha, Real.sin_pi]

/-- Witness for C3 at a concrete input: the particle at `(0, 300)` with
heading `π` and speed `1/2` on an 800 × 600 canvas, pointer at
`(500, 300)` (distance 500, so no repulsion). -/
theorem left_boundary_reflection_witness :
    ((⟨0, 300, 0, 1, 1/2, Real.pi, 1, 0⟩ : HeroParticle).x = 0 ∧
     (⟨0, 300, 0, 1, 1/2, Real.pi, 1, 0⟩ : HeroParticle).angle = Real.pi ∧
     0 < (⟨0, 300, 0, 1, 1/2, Real.pi, 1, 0⟩ : HeroParticle).speed ∧
     ¬ euclidDist 500 300 (⟨0, 300, 0, 1, 1/2, Real.pi, 1, 0⟩ : HeroParticle).x
        (⟨0, 300, 0, 1, 1/2, Real.pi, 1, 0⟩ : HeroParticle).y < 100) ∧
    ((heroUpdateParticle 800 600 500 300 ⟨0, 300, 0, 1, 1/2, Real.pi, 1, 0⟩).x = 0 ∧
     Real.cos (heroUpdateParticle 800 600 500 300
        ⟨0, 300, 0, 1, 1/2, Real.pi, 1, 0⟩).angle =
       -Real.cos (⟨0, 300, 0, 1, 1/2, Real.pi, 1, 0⟩ : HeroParticle).angle ∧
     Real.sin (heroUpdateParticle 800 600 500 300
        ⟨0, 300, 0, 1, 1/2, Real.pi, 1, 0⟩).angle =
       Real.sin (⟨0, 300, 0, 1, 1/2, Real.pi, 1, 0⟩ : HeroParticle).angle) := by
  have hfar : ¬ euclidDist 500 300 (0:ℝ) 300 < 100 := by
    unfold euclidDist
    rw [show ((500:ℝ) - 0) ^ 2 + ((300:ℝ) - 300) ^ 2 = 500 ^ 2 by norm_num]
    rw [Real.sqrt_sq (by norm_num : (0:ℝ) ≤ 500)]
    norm_num
  exact ⟨⟨rfl, rfl, by norm_num, hfar⟩,
    left_boundary_reflection 800 600 500 300 _ rfl rfl
      (by norm_num : (0:ℝ) < 1/2) hfar⟩

end Portfolio
